import Mathlib

/-!
Verification of the `atlas_report` scorer (`src/atlas_report/scorer.py`)
against its natural-language specification.

The Python module computes complexity, fragility and maturity metrics for
a CI/CD graph (`CICDGraph` from `atlas_sdk`).  We give a shallow embedding:

* nodes carry their id, their `NodeType`, and the optional attributes the
  scorer reads via `getattr(n, attr, default)` (`command`, `tag`, `pinned`,
  `parallel`, `doc_type`, and the stringified `metadata`);
* edges carry source id, target id, `EdgeType`;
* Python floats are modelled as rationals (every value the scorer produces
  is an exact decimal, and `round(x, 1)` is modelled as
  `⌊x*10 + 1/2⌋ / 10`, which agrees with Python's float rounding on all
  values reachable here — none sits on a rounding half-way point);
* the recursive depth walk `_compute_depth`, which in Python threads one
  mutable `visited` set through an entire traversal (the `set()` is fresh
  per top-level pipeline but shared between sibling recursive calls), is
  modelled by explicit state passing with a fuel parameter
  (`computeDepthF`); the fuel used by `compute_scores` is
  `edges.length + 1`, and the stabilisation theorem for claim C7 shows
  the result is independent of the fuel once the fuel exceeds the number
  of live CALLS edges, so the embedding computes the same total function
  the Python recursion does.
-/

namespace AtlasReport

/-- Node kinds used by the scorer (from `atlas_sdk.enums.NodeType`). -/
inductive NodeType where
  | PIPELINE
  | STAGE
  | STEP
  | JOB
  | SECRET_REF
  | CONTAINER_IMAGE
  | DOC_FILE
  | ENVIRONMENT
deriving DecidableEq, Repr

/-- Edge kinds used by the scorer (from `atlas_sdk.enums.EdgeType`). -/
inductive EdgeType where
  | CALLS
  | TRIGGERS
deriving DecidableEq, Repr

/-- A graph node.  `id` and `node_type` are always present; the remaining
fields model the kind-specific attributes the scorer reads through
`getattr(n, attr, default)` — `none` means the attribute is absent and the
scorer's default applies.  `metadata` holds the `str(...)` form of the
metadata map (`none` stands for the absent-attribute default `{}`, whose
`str` is `"\x7b\x7d"`). -/
structure Node where
  id : String
  node_type : NodeType
  command : Option String := none
  tag : Option String := none
  pinned : Option Bool := none
  parallel : Option Bool := none
  doc_type : Option String := none
  metadata : Option String := none
deriving DecidableEq, Repr

/-- A graph edge (`atlas_sdk.models.edges.Edge`). -/
structure Edge where
  edge_type : EdgeType
  source_node_id : String
  target_node_id : String
deriving DecidableEq, Repr

/-- The graph snapshot: ordered node and edge collections. -/
structure CICDGraph where
  nodes : List Node
  edges : List Edge
deriving DecidableEq, Repr

/-- The `Scores` dataclass of `scorer.py`. -/
structure Scores where
  node_count : Nat := 0
  edge_count : Nat := 0
  max_depth : Nat := 0
  max_fan_out : Nat := 0
  complexity_score : ℚ := 0
  secret_count : Nat := 0
  cross_trigger_count : Nat := 0
  unpinned_image_count : Nat := 0
  missing_doc_types : Nat := 0
  fragility_score : ℚ := 0
  has_caching : Bool := false
  has_parallelism : Bool := false
  pinned_image_ratio : ℚ := 0
  doc_coverage : ℚ := 0
  has_retries : Bool := false
  has_env_isolation : Bool := false
  maturity_score : ℚ := 0
deriving DecidableEq, Repr

/-- Python's `round(x, 1)`: one decimal digit.  On the values produced by
the scorer this equals `⌊x*10 + 1/2⌋ / 10` (no reachable value lies on a
half-way point, so round-half-even never differs from round-half-up). -/
def round1 (q : ℚ) : ℚ := ((⌊q * 10 + 1 / 2⌋ : ℤ) : ℚ) / 10

/-- `pat` is a leading segment of `l`. -/
def prefChars : List Char → List Char → Bool
  | [], _ => true
  | _ :: _, [] => false
  | a :: as, b :: bs => a == b && prefChars as bs

/-- `pat` occurs contiguously somewhere inside `l`. -/
def subInChars : List Char → List Char → Bool
  | pat, [] => prefChars pat []
  | pat, c :: rest => prefChars pat (c :: rest) || subInChars pat rest

/-- Python's substring test `sub in s`. -/
def strContains (s sub : String) : Bool := subInChars sub.data s.data

/-- Python's `s.lower()` on the ASCII strings the scorer handles:
lower-case each character.  (Defined by a structural map so that proofs
can evaluate it; on ASCII it agrees with `str.lower`.) -/
def strLower (s : String) : String := String.mk (s.data.map Char.toLower)

/-- `str(getattr(n, "metadata", \x7b\x7d))`. -/
def metaStr (n : Node) : String := n.metadata.getD "\x7b\x7d"

/-- `len(graph.nodes)`. -/
def nodeCount (g : CICDGraph) : Nat := g.nodes.length

/-- `len(graph.edges)`. -/
def edgeCount (g : CICDGraph) : Nat := g.edges.length

/-- One update of the `fan_out` dict:
`fan_out[src] = fan_out.get(src, 0) + 1`. -/
def bump : List (String × Nat) → String → List (String × Nat)
  | [], k => [(k, 1)]
  | (k', v) :: rest, k =>
    if k' == k then (k', v + 1) :: rest else (k', v) :: bump rest k

/-- The `fan_out` dictionary built over all edges. -/
def fanOutMap (edges : List Edge) : List (String × Nat) :=
  edges.foldl (fun m e => bump m e.source_node_id) []

/-- `max(fan_out.values(), default=0)`. -/
def maxFanOut (g : CICDGraph) : Nat :=
  (fanOutMap g.edges).foldl (fun a p => max a p.2) 0

/-- The CALLS edges leaving `node_id` (the list comprehension inside
`_compute_depth`). -/
def callsFrom (g : CICDGraph) (node_id : String) : List Edge :=
  g.edges.filter fun e =>
    e.source_node_id == node_id && e.edge_type == EdgeType.CALLS

/-- `children`: targets of the CALLS edges leaving `node_id`. -/
def childrenOf (g : CICDGraph) (node_id : String) : List String :=
  (callsFrom g node_id).map (·.target_node_id)

/-- `_compute_depth`, with fuel.  The Python function mutates one shared
`visited` set; here the set is threaded explicitly: the function returns
the depth together with the grown visited list.  Each recursion level
spends one unit of fuel (fuel `0` is never reached when the fuel exceeds
the number of live CALLS edges — the stabilisation theorem below). -/
def computeDepthF (g : CICDGraph) : Nat → String → List String → Nat × List String
  | 0, _, visited => (0, visited)
  | fuel + 1, node_id, visited =>
    if node_id ∈ visited then (0, visited)
    else
      let v := node_id :: visited
      let children := childrenOf g node_id
      if children.isEmpty then (1, v)
      else
        let r := children.foldl
          (fun acc c =>
            let p := computeDepthF g fuel c acc.2
            (max acc.1 p.1, p.2)) (0, v)
        (1 + r.1, r.2)

/-- `_compute_depth(graph, pid, set())`: fresh empty visited set, fuel
`len(edges) + 1` (sufficient by the stabilisation theorem). -/
def pipelineDepth (g : CICDGraph) (pid : String) : Nat :=
  (computeDepthF g (g.edges.length + 1) pid []).1

/-- `s.max_depth`: fold of `max` over all PIPELINE nodes, each traversed
with its own fresh visited set. -/
def maxDepth (g : CICDGraph) : Nat :=
  (g.nodes.filter fun n => n.node_type == NodeType.PIPELINE).foldl
    (fun acc p => max acc (pipelineDepth g p.id)) 0

/-- `raw = node_count*1.0 + edge_count*1.5 + max_depth*5 + max_fan_out*3`. -/
def complexityRaw (g : CICDGraph) : ℚ :=
  (nodeCount g : ℚ) * 1.0 + (edgeCount g : ℚ) * 1.5
    + (maxDepth g : ℚ) * 5 + (maxFanOut g : ℚ) * 3

/-- `s.complexity_score = min(round(raw, 1), 100.0)`. -/
def complexityScore (g : CICDGraph) : ℚ :=
  min (round1 (complexityRaw g)) 100.0

/-- `s.secret_count`. -/
def secretCount (g : CICDGraph) : Nat :=
  (g.nodes.filter fun n => n.node_type == NodeType.SECRET_REF).length

/-- `s.cross_trigger_count`. -/
def crossTriggerCount (g : CICDGraph) : Nat :=
  (g.edges.filter fun e => e.edge_type == EdgeType.TRIGGERS).length

/-- `s.unpinned_image_count`: CONTAINER_IMAGE nodes whose
`getattr(n, "tag", "latest")` is one of the floating tags. -/
def unpinnedImageCount (g : CICDGraph) : Nat :=
  (g.nodes.filter fun n =>
    n.node_type == NodeType.CONTAINER_IMAGE
      && ["latest", "stable", "nightly"].contains (n.tag.getD "latest")).length

/-- The literal `expected_docs` set. -/
def expectedDocs : List String :=
  ["readme", "architecture", "runbook", "security_policy", "codeowners"]

/-- The string form of a DOC_FILE node's `doc_type`: the enum's `.value`
when the attribute carries one, else `str(...)` of the raw value, `""`
when absent.  The model stores that final string in `Node.doc_type`. -/
def docTypeStr (n : Node) : String := n.doc_type.getD ""

/-- `found_docs`: the doc-type strings of the DOC_FILE nodes. -/
def foundDocs (g : CICDGraph) : List String :=
  (g.nodes.filter fun n => n.node_type == NodeType.DOC_FILE).map docTypeStr

/-- `s.missing_doc_types = len(expected_docs - found_docs)` (the five
expected identifiers are pairwise distinct, so the set difference's size
is the number of expected identifiers not found). -/
def missingDocTypes (g : CICDGraph) : Nat :=
  (expectedDocs.filter fun d => !(foundDocs g).contains d).length

/-- `frag_raw`. -/
def fragRaw (g : CICDGraph) : Nat :=
  secretCount g * 5 + crossTriggerCount g * 10
    + unpinnedImageCount g * 15 + missingDocTypes g * 8

/-- `s.fragility_score = min(round(frag_raw, 1), 100.0)`. -/
def fragilityScore (g : CICDGraph) : ℚ :=
  min (round1 (fragRaw g : ℚ)) 100.0

/-- `s.has_caching`: any STEP whose command contains `"cache"`
case-insensitively (`(getattr(n, "command", "") or "").lower()`). -/
def hasCaching (g : CICDGraph) : Bool :=
  (g.nodes.filter fun n => n.node_type == NodeType.STEP).any fun n =>
    strContains (strLower (n.command.getD "")) "cache"

/-- `s.has_parallelism`: a STAGE with `parallel == True`, or the
fan-out fallback `max_fan_out >= 2`. -/
def hasParallelism (g : CICDGraph) : Bool :=
  ((g.nodes.filter fun n => n.node_type == NodeType.STAGE).any fun n =>
      n.parallel.getD false)
    || decide (2 ≤ maxFanOut g)

/-- `images`: the CONTAINER_IMAGE nodes. -/
def images (g : CICDGraph) : List Node :=
  g.nodes.filter fun n => n.node_type == NodeType.CONTAINER_IMAGE

/-- `s.pinned_image_ratio`: fraction of images with `pinned == True`;
`1.0` when there are no images. -/
def pinnedImageRatio (g : CICDGraph) : ℚ :=
  if (images g).isEmpty then 1.0
  else ((images g).filter fun n => n.pinned.getD false).length
    / ((images g).length : ℚ)

/-- `s.doc_coverage = 1.0 - missing_doc_types / len(expected_docs)`
(the `if expected_docs else 1.0` guard is on a non-empty literal). -/
def docCoverage (g : CICDGraph) : ℚ :=
  if expectedDocs.isEmpty then 1.0
  else 1.0 - (missingDocTypes g : ℚ) / (expectedDocs.length : ℚ)

/-- `s.has_retries`: any node whose lower-cased command contains
`"retry"`, or whose *unlowered* stringified metadata contains `"retry"`
(the source lowers only the command). -/
def hasRetries (g : CICDGraph) : Bool :=
  g.nodes.any fun n =>
    strContains (strLower (n.command.getD "")) "retry"
      || strContains (metaStr n) "retry"

/-- `s.has_env_isolation`: at least two ENVIRONMENT nodes. -/
def hasEnvIsolation (g : CICDGraph) : Bool :=
  decide (2 ≤ (g.nodes.filter fun n =>
    n.node_type == NodeType.ENVIRONMENT).length)

/-- `maturity_points`: one point per satisfied signal, in source order. -/
def maturityPoints (g : CICDGraph) : Nat :=
  (if hasCaching g then 1 else 0)
    + (if hasParallelism g then 1 else 0)
    + (if pinnedImageRatio g ≥ 0.8 then 1 else 0)
    + (if docCoverage g ≥ 0.6 then 1 else 0)
    + (if hasRetries g then 1 else 0)
    + (if hasEnvIsolation g then 1 else 0)

/-- `s.maturity_score = round(maturity_points / 6 * 100, 1)`. -/
def maturityScore (g : CICDGraph) : ℚ :=
  round1 ((maturityPoints g : ℚ) / 6 * 100)

/-- `compute_scores(graph)`: the full record. -/
def compute_scores (g : CICDGraph) : Scores :=
  { node_count := nodeCount g
    edge_count := edgeCount g
    max_depth := maxDepth g
    max_fan_out := maxFanOut g
    complexity_score := complexityScore g
    secret_count := secretCount g
    cross_trigger_count := crossTriggerCount g
    unpinned_image_count := unpinnedImageCount g
    missing_doc_types := missingDocTypes g
    fragility_score := fragilityScore g
    has_caching := hasCaching g
    has_parallelism := hasParallelism g
    pinned_image_ratio := pinnedImageRatio g
    doc_coverage := docCoverage g
    has_retries := hasRetries g
    has_env_isolation := hasEnvIsolation g
    maturity_score := maturityScore g }

/-- The number of CALLS edges whose source is not yet visited: the
termination measure of the depth traversal. -/
def liveCalls (g : CICDGraph) (visited : List String) : Nat :=
  g.edges.countP fun e =>
    e.edge_type == EdgeType.CALLS && !decide (e.source_node_id ∈ visited)

/-- Modelled from the spec's words (§4.1 `max_depth`): `ids` lists the
nodes of a path following only CALLS edges, consecutive ids joined by a
CALLS edge. -/
def isCallsChain (g : CICDGraph) : List String → Bool
  | [] => true
  | [_] => true
  | a :: b :: rest =>
    (g.edges.any fun e =>
        e.edge_type == EdgeType.CALLS
          && e.source_node_id == a && e.target_node_id == b)
      && isCallsChain g (b :: rest)

/-- Modelled from the spec's words (§4.1 `missing_doc_types`): the count
of expected doc identifiers absent when each found `doc_type` is compared
in its *normalized lowercase* form. -/
def missingDocTypesSpec (g : CICDGraph) : Nat :=
  (expectedDocs.filter fun d =>
    !((foundDocs g).map strLower).contains d).length

/-- A convenience constructor for nodes whose optional attributes are all
absent. -/
def bare (i : String) (k : NodeType) : Node := { id := i, node_type := k }

/-- A CALLS edge. -/
def calls (s t : String) : Edge :=
  { edge_type := EdgeType.CALLS, source_node_id := s, target_node_id := t }

/-- The empty graph. -/
def emptyGraph : CICDGraph := { nodes := [], edges := [] }

/-- C2's sibling-sharing graph: the pipeline `P` calls `A` and `B`; `A`
reaches the shared node `X` in two hops (`P→A→X`), `B` reaches it in
three (`P→B→C→X`), and `X` continues to `Y`.  The longest CALLS path is
`P→B→C→X→Y` (5 nodes), but the traversal explores `A`'s branch first and
marks `X` and `Y` visited, so `B`'s branch stops at `X`. -/
def cexGraph : CICDGraph :=
  { nodes := [bare "P" NodeType.PIPELINE, bare "A" NodeType.JOB,
      bare "B" NodeType.JOB, bare "C" NodeType.JOB,
      bare "X" NodeType.JOB, bare "Y" NodeType.JOB]
    edges := [calls "P" "A", calls "P" "B", calls "A" "X",
      calls "B" "C", calls "C" "X", calls "X" "Y"] }

/-- Two pipelines sharing the node `X`: each traversal starts with a
fresh visited set, so both reach full depth. -/
def twoPipeGraph : CICDGraph :=
  { nodes := [bare "P1" NodeType.PIPELINE, bare "P2" NodeType.PIPELINE,
      bare "X" NodeType.JOB]
    edges := [calls "P1" "X", calls "P2" "X"] }

/-- One pipeline with a CALLS edge to an id that is not a node. -/
def danglingGraph : CICDGraph :=
  { nodes := [bare "P" NodeType.PIPELINE]
    edges := [calls "P" "ghost"] }

/-- The same pipeline without the dangling edge. -/
def soloPipeGraph : CICDGraph :=
  { nodes := [bare "P" NodeType.PIPELINE], edges := [] }

/-- One ENVIRONMENT node. -/
def envGraph1 : CICDGraph :=
  { nodes := [bare "E1" NodeType.ENVIRONMENT], edges := [] }

/-- Two ENVIRONMENT nodes: `envGraph1` extended with a second one. -/
def envGraph2 : CICDGraph :=
  { nodes := [bare "E1" NodeType.ENVIRONMENT, bare "E2" NodeType.ENVIRONMENT]
    edges := [] }

/-- A node whose stringified metadata contains `"Retry"` (capital R). -/
def retryMetaUpperGraph : CICDGraph :=
  { nodes := [{ bare "M" NodeType.JOB with metadata := some "Retry enabled" }]
    edges := [] }

/-- A node whose stringified metadata contains lowercase `"retry"`. -/
def retryMetaLowerGraph : CICDGraph :=
  { nodes := [{ bare "M" NodeType.JOB with metadata := some "will retry on failure" }]
    edges := [] }

/-- A node whose command contains `"RETRY"` (upper case). -/
def retryCmdUpperGraph : CICDGraph :=
  { nodes := [{ bare "S" NodeType.STEP with command := some "RETRY now" }]
    edges := [] }

/-- A DOC_FILE whose doc_type string is upper-case `"README"`. -/
def docUpperGraph : CICDGraph :=
  { nodes := [{ bare "D" NodeType.DOC_FILE with doc_type := some "README" }]
    edges := [] }

/-- A DOC_FILE whose doc_type string is lowercase `"readme"`. -/
def docLowerGraph : CICDGraph :=
  { nodes := [{ bare "D" NodeType.DOC_FILE with doc_type := some "readme" }]
    edges := [] }

/-- Two DOC_FILE nodes with the same doc_type `"readme"`. -/
def docDupGraph : CICDGraph :=
  { nodes := [{ bare "D1" NodeType.DOC_FILE with doc_type := some "readme" },
      { bare "D2" NodeType.DOC_FILE with doc_type := some "readme" }]
    edges := [] }

/-- A pipeline whose CALLS edges form the cycle `A→B→A`. -/
def cycleGraph : CICDGraph :=
  { nodes := [bare "A" NodeType.PIPELINE, bare "B" NodeType.JOB]
    edges := [calls "A" "B", calls "B" "A"] }

/-- A CONTAINER_IMAGE with `pinned=True` but the floating tag
`"latest"`. -/
def pinnedLatestGraph : CICDGraph :=
  { nodes := [{ bare "I" NodeType.CONTAINER_IMAGE with pinned := some true, tag := some "latest" }]
    edges := [] }

/-! ### Arithmetic lemmas about `round1` -/

/-- Rounding an integer-valued rational to one decimal is the identity. -/
theorem round1_natCast (n : ℕ) : round1 (n : ℚ) = n := by
  rw [round1]
  have h : ((n : ℚ) * 10 + 1 / 2) = 1 / 2 + ((10 * n : ℤ) : ℚ) := by
    push_cast; ring
  rw [h, Int.floor_add_int]
  have h2 : ⌊(1 / 2 : ℚ)⌋ = 0 := by norm_num
  rw [h2]
  push_cast
  ring

/-- `round1` preserves nonnegativity. -/
theorem round1_nonneg {q : ℚ} (h : 0 ≤ q) : 0 ≤ round1 q := by
  rw [round1]
  have h1 : (0 : ℤ) ≤ ⌊q * 10 + 1 / 2⌋ := by
    rw [Int.le_floor]
    push_cast
    linarith
  have h2 : (0 : ℚ) ≤ (⌊q * 10 + 1 / 2⌋ : ℚ) := by exact_mod_cast h1
  linarith

/-- `round1` is monotone. -/
theorem round1_mono {a b : ℚ} (h : a ≤ b) : round1 a ≤ round1 b := by
  rw [round1, round1]
  have h1 : ⌊a * 10 + 1 / 2⌋ ≤ ⌊b * 10 + 1 / 2⌋ := by
    apply Int.floor_le_floor
    linarith
  have h2 : ((⌊a * 10 + 1 / 2⌋ : ℤ) : ℚ) ≤ ((⌊b * 10 + 1 / 2⌋ : ℤ) : ℚ) := by
    exact_mod_cast h1
  linarith

/-! ### Termination of the depth traversal

`liveCalls g visited` (the number of CALLS edges whose source is not yet
visited) strictly decreases at every recursion level of `computeDepthF`,
so any fuel above it makes the fuel irrelevant: the fuel-indexed family
stabilises, which is exactly the statement that the Python recursion
terminates with that value. -/

/-- Growing the visited set cannot increase the measure. -/
theorem liveCalls_mono (g : CICDGraph) {v w : List String}
    (h : v ⊆ w) : liveCalls g w ≤ liveCalls g v := by
  apply List.countP_mono_left
  intro e _ he
  simp only [Bool.and_eq_true, Bool.not_eq_true', decide_eq_false_iff_not] at he ⊢
  exact ⟨he.1, fun hx => he.2 (h hx)⟩

/-- Splitting the measure at a fresh id `x`: the live count for `v` is
the live count for `x :: v` plus the number of CALLS edges leaving `x`. -/
theorem liveCalls_split (l : List Edge) (v : List String) (x : String)
    (hx : x ∉ v) :
    l.countP (fun e => e.edge_type == EdgeType.CALLS
        && !decide (e.source_node_id ∈ v))
      = l.countP (fun e => e.edge_type == EdgeType.CALLS
          && !decide (e.source_node_id ∈ x :: v))
        + l.countP (fun e => e.source_node_id == x
            && e.edge_type == EdgeType.CALLS) := by
  induction l with
  | nil => rfl
  | cons e l ih =>
    rw [List.countP_cons, List.countP_cons, List.countP_cons, ih]
    by_cases h1 : e.edge_type = EdgeType.CALLS
    · by_cases h2 : e.source_node_id = x
      · simp [h1, h2, hx, List.mem_cons]
        omega
      · by_cases h3 : e.source_node_id ∈ v
        · simp [h1, h2, h3, List.mem_cons]
        · simp [h1, h2, h3, List.mem_cons]
          omega
    · have hb : (e.edge_type == EdgeType.CALLS) = false := by
        simp [h1]
      simp [hb]

/-- A fresh id with at least one outgoing CALLS edge makes the measure
strictly drop when inserted into the visited set. -/
theorem liveCalls_cons_lt (g : CICDGraph) {v : List String} {x : String}
    (hx : x ∉ v) (hc : callsFrom g x ≠ []) :
    liveCalls g (x :: v) < liveCalls g v := by
  have hsplit := liveCalls_split g.edges v x hx
  have hpos : 0 < g.edges.countP (fun e => e.source_node_id == x
      && e.edge_type == EdgeType.CALLS) := by
    rw [List.countP_eq_length_filter]
    exact List.length_pos.mpr hc
  show g.edges.countP _ < g.edges.countP _
  omega

/-- A fresh id with an outgoing CALLS edge witnesses a positive measure. -/
theorem liveCalls_pos (g : CICDGraph) {id : String} {visited : List String}
    (hmem : id ∉ visited) (hc : callsFrom g id ≠ []) :
    0 < liveCalls g visited := by
  obtain ⟨e, he⟩ := List.exists_mem_of_ne_nil _ hc
  have h' := List.mem_filter.1 he
  have hpred := h'.2
  rw [Bool.and_eq_true] at hpred
  obtain ⟨hsrc, htype⟩ := hpred
  rw [liveCalls, List.countP_pos_iff]
  refine ⟨e, h'.1, ?_⟩
  simp only [Bool.and_eq_true, Bool.not_eq_true', decide_eq_false_iff_not]
  refine ⟨htype, ?_⟩
  rw [beq_iff_eq] at hsrc
  rw [hsrc]
  exact hmem

/-- The traversal only ever grows the visited set (both for a single
call and along the sibling fold). -/
theorem visited_subset (g : CICDGraph) : ∀ fuel : Nat,
    (∀ id visited, visited ⊆ (computeDepthF g fuel id visited).2)
      ∧ (∀ (cs : List String) (a : Nat) visited, visited ⊆
          (cs.foldl (fun acc c =>
            let p := computeDepthF g fuel c acc.2
            (max acc.1 p.1, p.2)) (a, visited)).2) := by
  intro fuel
  induction fuel with
  | zero =>
    constructor
    · intro id visited
      simp [computeDepthF]
    · intro cs
      induction cs with
      | nil =>
        intro a visited
        simp
      | cons c cs ih =>
        intro a visited
        simp only [List.foldl_cons, computeDepthF]
        exact ih _ _
  | succ fuel ih =>
    have hd : ∀ id visited, visited ⊆ (computeDepthF g (fuel + 1) id visited).2 := by
      intro id visited
      simp only [computeDepthF]
      by_cases hmem : id ∈ visited
      · simp [hmem]
      · by_cases hch : (childrenOf g id).isEmpty
        · simp only [hmem, if_false, hch, if_true, ite_true, ite_false]
          exact List.subset_cons_self _ _
        · simp only [hmem, hch, if_false, ite_false]
          exact (List.subset_cons_self _ _).trans (ih.2 _ _ _)
    refine ⟨hd, ?_⟩
    intro cs
    induction cs with
    | nil =>
      intro a visited
      simp
    | cons c cs ihc =>
      intro a visited
      simp only [List.foldl_cons]
      exact (hd c visited).trans (ihc _ _)

/-- Core stabilisation: once the fuel exceeds `liveCalls g visited`, the
value of `computeDepthF` (and of the sibling fold) no longer depends on
the fuel. -/
theorem depth_stable_aux : ∀ (k : Nat) (g : CICDGraph),
    (∀ id visited f₁ f₂, liveCalls g visited ≤ k → k < f₁ → k < f₂ →
        computeDepthF g f₁ id visited = computeDepthF g f₂ id visited)
      ∧ (∀ (cs : List String) (a : Nat) visited f₁ f₂,
          liveCalls g visited ≤ k → k < f₁ → k < f₂ →
          cs.foldl (fun acc c =>
              let p := computeDepthF g f₁ c acc.2
              (max acc.1 p.1, p.2)) (a, visited)
            = cs.foldl (fun acc c =>
                let p := computeDepthF g f₂ c acc.2
                (max acc.1 p.1, p.2)) (a, visited)) := by
  intro k
  induction k using Nat.strong_induction_on with
  | _ k IH =>
  intro g
  have P : ∀ id visited f₁ f₂, liveCalls g visited ≤ k → k < f₁ → k < f₂ →
      computeDepthF g f₁ id visited = computeDepthF g f₂ id visited := by
    intro id visited f₁ f₂ hl h1 h2
    obtain ⟨f₁', rfl⟩ : ∃ m, f₁ = m + 1 := ⟨f₁ - 1, by omega⟩
    obtain ⟨f₂', rfl⟩ : ∃ m, f₂ = m + 1 := ⟨f₂ - 1, by omega⟩
    simp only [computeDepthF]
    by_cases hmem : id ∈ visited
    · simp [hmem]
    · by_cases hch : (childrenOf g id).isEmpty
      · simp [hmem, hch]
      · simp only [hmem, hch, if_false, ite_false]
        have hcalls : callsFrom g id ≠ [] := by
          intro h0
          rw [childrenOf, h0] at hch
          exact hch rfl
        have hk : 1 ≤ k := le_trans (liveCalls_pos g hmem hcalls) hl
        have hdrop : liveCalls g (id :: visited) ≤ k - 1 := by
          have := liveCalls_cons_lt g hmem hcalls
          omega
        have hf := (IH (k - 1) (by omega) g).2 (childrenOf g id) 0
          (id :: visited) f₁' f₂' hdrop (by omega) (by omega)
        rw [hf]
  refine ⟨P, ?_⟩
  intro cs
  induction cs with
  | nil =>
    intros
    rfl
  | cons c cs ihc =>
    intro a visited f₁ f₂ hl h1 h2
    simp only [List.foldl_cons]
    have hp := P c visited f₁ f₂ hl h1 h2
    rw [hp]
    have hsub : visited ⊆ (computeDepthF g f₂ c visited).2 :=
      (visited_subset g f₂).1 c visited
    exact ihc _ _ f₁ f₂ (le_trans (liveCalls_mono g hsub) hl) h1 h2

/-! ### Evaluation helpers for the rational score fields -/

/-- With no CONTAINER_IMAGE nodes the pinned ratio defaults to `1.0`. -/
theorem pinnedImageRatio_no_images {g : CICDGraph}
    (h : (images g).isEmpty = true) : pinnedImageRatio g = 1 := by
  rw [pinnedImageRatio, if_pos h]
  norm_num

/-- Doc coverage in closed form (the expected set is the 5-element
literal). -/
theorem docCoverage_eq (g : CICDGraph) :
    docCoverage g = 1 - (missingDocTypes g : ℚ) / 5 := by
  rw [docCoverage, if_neg (by decide)]
  norm_num [expectedDocs]

/-- Evaluate the fragility score from its integer raw value (below the
cap). -/
theorem fragilityScore_eval {g : CICDGraph} {m : Nat} (h : fragRaw g = m)
    (hm : (m : ℚ) ≤ 100.0) : fragilityScore g = m := by
  rw [fragilityScore, h, round1_natCast]
  exact min_eq_left hm

/-- Evaluate the complexity score from the four integer components. -/
theorem complexityScore_eval {g : CICDGraph} {n e d f : Nat}
    (hn : nodeCount g = n) (he : edgeCount g = e) (hd : maxDepth g = d)
    (hf : maxFanOut g = f) :
    complexityScore g
      = min (round1 ((n : ℚ) * 1.0 + (e : ℚ) * 1.5 + (d : ℚ) * 5
          + (f : ℚ) * 3)) 100.0 := by
  rw [complexityScore, complexityRaw, hn, he, hd, hf]

/-- Evaluate the maturity score from the point count. -/
theorem maturityScore_eval {g : CICDGraph} {p : Nat}
    (h : maturityPoints g = p) :
    maturityScore g = round1 ((p : ℚ) / 6 * 100) := by
  rw [maturityScore, h]

/-- Maturity points of a graph with no step/stage/image/doc/retry
signals: the free pinned-ratio point plus the environment point. -/
theorem maturityPoints_sparse {g : CICDGraph}
    (h1 : hasCaching g = false) (h2 : hasParallelism g = false)
    (h3 : (images g).isEmpty = true) (h4 : missingDocTypes g = 5)
    (h5 : hasRetries g = false) :
    maturityPoints g = 1 + (if hasEnvIsolation g then 1 else 0) := by
  have hr : pinnedImageRatio g = 1 := pinnedImageRatio_no_images h3
  have hd : docCoverage g = 0 := by
    rw [docCoverage_eq, h4]
    norm_num
  simp only [maturityPoints, h1, h2, hr, hd, h5]
  norm_num

/-- Appending an element that fails the predicate leaves a filter
unchanged. -/
theorem filter_append_single_neg {α : Type} (p : α → Bool) (l : List α)
    (e : α) (h : p e = false) : (l ++ [e]).filter p = l.filter p := by
  rw [List.filter_append]
  simp [List.filter_cons, h]

/-! ### The claims -/

/-- C1 counterexample: on the empty graph the code returns
`fragility_score = 40.0` (5 missing doc types × 8) and
`maturity_score = 16.7` (the pinned-ratio point), so the claim that all
three scores are `0.0` is false. -/
theorem empty_graph_nonzero_scores :
    (compute_scores emptyGraph).fragility_score = 40
      ∧ (compute_scores emptyGraph).maturity_score = 167 / 10
      ∧ (40 : ℚ) ≠ 0 ∧ (167 / 10 : ℚ) ≠ 0 := by
  refine ⟨?_, ?_, by norm_num, by norm_num⟩
  · exact fragilityScore_eval (by decide : fragRaw emptyGraph = 40) (by norm_num)
  · have hp : maturityPoints emptyGraph = 1 := by
      rw [maturityPoints_sparse (by decide) (by decide) (by decide)
        (by decide) (by decide)]
      rw [(by decide : hasEnvIsolation emptyGraph = false)]
      norm_num
    rw [show (compute_scores emptyGraph).maturity_score
        = maturityScore emptyGraph from rfl, maturityScore_eval hp]
    norm_num [round1]

/-- C1 (amended): on the empty graph every count is 0 except
`missing_doc_types = 5`; `complexity_score = 0.0`, but
`fragility_score = 40.0` (5 missing docs × 8) and
`maturity_score = 16.7` (one point, from `pinned_image_ratio = 1.0`);
`doc_coverage = 0.0`. -/
theorem empty_graph_scores :
    (compute_scores emptyGraph).node_count = 0
      ∧ (compute_scores emptyGraph).edge_count = 0
      ∧ (compute_scores emptyGraph).max_depth = 0
      ∧ (compute_scores emptyGraph).max_fan_out = 0
      ∧ (compute_scores emptyGraph).complexity_score = 0
      ∧ (compute_scores emptyGraph).secret_count = 0
      ∧ (compute_scores emptyGraph).cross_trigger_count = 0
      ∧ (compute_scores emptyGraph).unpinned_image_count = 0
      ∧ (compute_scores emptyGraph).missing_doc_types = 5
      ∧ (compute_scores emptyGraph).fragility_score = 40
      ∧ (compute_scores emptyGraph).has_caching = false
      ∧ (compute_scores emptyGraph).has_parallelism = false
      ∧ (compute_scores emptyGraph).pinned_image_ratio = 1
      ∧ (compute_scores emptyGraph).doc_coverage = 0
      ∧ (compute_scores emptyGraph).has_retries = false
      ∧ (compute_scores emptyGraph).has_env_isolation = false
      ∧ (compute_scores emptyGraph).maturity_score = 167 / 10 := by
  refine ⟨by decide, by decide, by decide, by decide, ?_, by decide,
    by decide, by decide, by decide, ?_, by decide, by decide, ?_, ?_,
    by decide, by decide, ?_⟩
  · rw [show (compute_scores emptyGraph).complexity_score
        = complexityScore emptyGraph from rfl,
      complexityScore_eval (by decide : nodeCount emptyGraph = 0)
        (by decide : edgeCount emptyGraph = 0)
        (by decide : maxDepth emptyGraph = 0)
        (by decide : maxFanOut emptyGraph = 0)]
    norm_num [round1]
  · exact fragilityScore_eval (by decide : fragRaw emptyGraph = 40) (by norm_num)
  · exact pinnedImageRatio_no_images
      (show (images emptyGraph).isEmpty = true by decide)
  · rw [show (compute_scores emptyGraph).doc_coverage
        = docCoverage emptyGraph from rfl, docCoverage_eq,
      (by decide : missingDocTypes emptyGraph = 5)]
    norm_num
  · have hp : maturityPoints emptyGraph = 1 := by
      rw [maturityPoints_sparse (by decide) (by decide) (by decide)
        (by decide) (by decide)]
      rw [(by decide : hasEnvIsolation emptyGraph = false)]
      norm_num
    rw [show (compute_scores emptyGraph).maturity_score
        = maturityScore emptyGraph from rfl, maturityScore_eval hp]
    norm_num [round1]

/-- C2 counterexample: in `cexGraph` the CALLS path `P→B→C→X→Y` has 5
pairwise-distinct nodes and starts at the PIPELINE node `P`, yet the
code computes `max_depth = 4`: the traversal explores the short branch
`P→A→X→Y` first, and the shared visited set then cuts `B`'s branch off
at `X`, so `max_depth` is not the longest-path length. -/
theorem sibling_visited_sharing_undercounts_depth :
    isCallsChain cexGraph ["P", "B", "C", "X", "Y"] = true
      ∧ (["P", "B", "C", "X", "Y"] : List String).Nodup
      ∧ bare "P" NodeType.PIPELINE ∈ cexGraph.nodes
      ∧ (bare "P" NodeType.PIPELINE).node_type = NodeType.PIPELINE
      ∧ (["P", "B", "C", "X", "Y"] : List String).length = 5
      ∧ (compute_scores cexGraph).max_depth = 4
      ∧ (compute_scores cexGraph).max_depth ≠ 5 := by decide

/-- C2 (amended): `max_depth` is the max over PIPELINE nodes of a
traversal that starts from a fresh empty visited set per pipeline (so
one pipeline never suppresses another: both pipelines of `twoPipeGraph`
reach their full depth 2 through the shared node), but within one
traversal the visited set is shared across sibling branches, so a node
reached earlier by a sibling contributes 0 and `max_depth` can
undercount the longest CALLS path (4 instead of 5 on `cexGraph`). -/
theorem max_depth_per_pipeline_traversal :
    (∀ g : CICDGraph, (compute_scores g).max_depth
        = (g.nodes.filter fun n => n.node_type == NodeType.PIPELINE).foldl
            (fun acc p =>
              max acc (computeDepthF g (g.edges.length + 1) p.id []).1) 0)
      ∧ pipelineDepth twoPipeGraph "P1" = 2
      ∧ pipelineDepth twoPipeGraph "P2" = 2
      ∧ (compute_scores twoPipeGraph).max_depth = 2
      ∧ (compute_scores cexGraph).max_depth = 4 :=
  ⟨fun _ => rfl, by decide, by decide, by decide, by decide⟩

/-- C3 counterexample: a node whose stringified metadata contains
`"Retry"` (capital R) does *not* set `has_retries` — the code only
lower-cases the command, not the metadata. -/
theorem metadata_retry_case_sensitive :
    strContains (metaStr { bare "M" NodeType.JOB with
        metadata := some "Retry enabled" }) "Retry" = true
      ∧ (compute_scores retryMetaUpperGraph).has_retries = false := by
  decide

/-- C3 (amended): `has_retries` is true iff some node's command contains
`"retry"` case-insensitively, or its stringified metadata contains the
literal lowercase `"retry"` (metadata is compared case-sensitively):
lowercase metadata and upper-case commands count, capitalised metadata
does not. -/
theorem has_retries_lowercase_metadata_only :
    (∀ g : CICDGraph, (compute_scores g).has_retries
        = (g.nodes.any fun n =>
            strContains (strLower (n.command.getD "")) "retry"
              || strContains (metaStr n) "retry"))
      ∧ (compute_scores retryMetaLowerGraph).has_retries = true
      ∧ (compute_scores retryCmdUpperGraph).has_retries = true
      ∧ (compute_scores retryMetaUpperGraph).has_retries = false :=
  ⟨fun _ => rfl, by decide, by decide, by decide⟩

/-- C4 counterexample: a CALLS edge to the nonexistent id `"ghost"`
gives `max_depth = 2`, whereas ending the chain at the edge's source
(the same graph without the dangling edge) gives `max_depth = 1` — the
dangling reference *does* add one depth level. -/
theorem dangling_target_adds_depth :
    (compute_scores danglingGraph).max_depth = 2
      ∧ (compute_scores soloPipeGraph).max_depth = 1
      ∧ (compute_scores danglingGraph).max_depth
          ≠ (compute_scores soloPipeGraph).max_depth := by
  decide

/-- C4 (amended): a dangling CALLS edge does not crash the traversal —
`compute_scores` still returns a complete, well-formed record — but the
dangling target is traversed as a leaf and contributes one extra depth
level (`max_depth = 2`, not 1). -/
theorem dangling_edges_no_crash :
    (compute_scores danglingGraph).node_count = 1
      ∧ (compute_scores danglingGraph).edge_count = 1
      ∧ (compute_scores danglingGraph).max_depth = 2
      ∧ (compute_scores danglingGraph).max_fan_out = 1
      ∧ (compute_scores danglingGraph).complexity_score = 31 / 2
      ∧ (compute_scores danglingGraph).secret_count = 0
      ∧ (compute_scores danglingGraph).cross_trigger_count = 0
      ∧ (compute_scores danglingGraph).unpinned_image_count = 0
      ∧ (compute_scores danglingGraph).missing_doc_types = 5
      ∧ (compute_scores danglingGraph).fragility_score = 40
      ∧ (compute_scores danglingGraph).has_caching = false
      ∧ (compute_scores danglingGraph).has_parallelism = false
      ∧ (compute_scores danglingGraph).pinned_image_ratio = 1
      ∧ (compute_scores danglingGraph).doc_coverage = 0
      ∧ (compute_scores danglingGraph).has_retries = false
      ∧ (compute_scores danglingGraph).has_env_isolation = false
      ∧ (compute_scores danglingGraph).maturity_score = 167 / 10 := by
  refine ⟨by decide, by decide, by decide, by decide, ?_, by decide,
    by decide, by decide, by decide, ?_, by decide, by decide, ?_, ?_,
    by decide, by decide, ?_⟩
  · rw [show (compute_scores danglingGraph).complexity_score
        = complexityScore danglingGraph from rfl,
      complexityScore_eval (by decide : nodeCount danglingGraph = 1)
        (by decide : edgeCount danglingGraph = 1)
        (by decide : maxDepth danglingGraph = 2)
        (by decide : maxFanOut danglingGraph = 1)]
    norm_num [round1]
  · exact fragilityScore_eval (by decide : fragRaw danglingGraph = 40)
      (by norm_num)
  · exact pinnedImageRatio_no_images
      (show (images danglingGraph).isEmpty = true by decide)
  · rw [show (compute_scores danglingGraph).doc_coverage
        = docCoverage danglingGraph from rfl, docCoverage_eq,
      (by decide : missingDocTypes danglingGraph = 5)]
    norm_num
  · have hp : maturityPoints danglingGraph = 1 := by
      rw [maturityPoints_sparse (by decide) (by decide) (by decide)
        (by decide) (by decide)]
      rw [(by decide : hasEnvIsolation danglingGraph = false)]
      norm_num
    rw [show (compute_scores danglingGraph).maturity_score
        = maturityScore danglingGraph from rfl, maturityScore_eval hp]
    norm_num [round1]

/-- C5 counterexample: `envGraph2` is exactly `envGraph1` extended with
a second ENVIRONMENT node, yet the maturity step is
`33.3 − 16.7 = 16.6 ≠ round(1/6*100, 1) = 16.7`, and the complexity
score changes (the added node raises `node_count`). -/
theorem env_toggle_changes_complexity :
    envGraph2.nodes = envGraph1.nodes ++ [bare "E2" NodeType.ENVIRONMENT]
      ∧ envGraph2.edges = envGraph1.edges
      ∧ ((compute_scores envGraph2).maturity_score
          - (compute_scores envGraph1).maturity_score ≠ round1 (1 / 6 * 100))
      ∧ (compute_scores envGraph2).complexity_score
          ≠ (compute_scores envGraph1).complexity_score := by
  have hp1 : maturityPoints envGraph1 = 1 := by
    rw [maturityPoints_sparse (by decide) (by decide) (by decide)
      (by decide) (by decide)]
    rw [(by decide : hasEnvIsolation envGraph1 = false)]
    norm_num
  have hp2 : maturityPoints envGraph2 = 2 := by
    rw [maturityPoints_sparse (by decide) (by decide) (by decide)
      (by decide) (by decide)]
    rw [(by decide : hasEnvIsolation envGraph2 = true)]
    norm_num
  have hm1 : (compute_scores envGraph1).maturity_score = 167 / 10 := by
    rw [show (compute_scores envGraph1).maturity_score
        = maturityScore envGraph1 from rfl, maturityScore_eval hp1]
    norm_num [round1]
  have hm2 : (compute_scores envGraph2).maturity_score = 333 / 10 := by
    rw [show (compute_scores envGraph2).maturity_score
        = maturityScore envGraph2 from rfl, maturityScore_eval hp2]
    norm_num [round1]
  have hc1 : (compute_scores envGraph1).complexity_score = 1 := by
    rw [show (compute_scores envGraph1).complexity_score
        = complexityScore envGraph1 from rfl,
      complexityScore_eval (by decide : nodeCount envGraph1 = 1)
        (by decide : edgeCount envGraph1 = 0)
        (by decide : maxDepth envGraph1 = 0)
        (by decide : maxFanOut envGraph1 = 0)]
    norm_num [round1]
  have hc2 : (compute_scores envGraph2).complexity_score = 2 := by
    rw [show (compute_scores envGraph2).complexity_score
        = complexityScore envGraph2 from rfl,
      complexityScore_eval (by decide : nodeCount envGraph2 = 2)
        (by decide : edgeCount envGraph2 = 0)
        (by decide : maxDepth envGraph2 = 0)
        (by decide : maxFanOut envGraph2 = 0)]
    norm_num [round1]
  refine ⟨rfl, rfl, ?_, ?_⟩
  · rw [hm1, hm2]
    norm_num [round1]
  · rw [hc1, hc2]
    norm_num

/-- C5 (amended): adding a second ENVIRONMENT node flips
`has_env_isolation` and moves `maturity_score` by one point step — the
step is `round((p+1)/6*100, 1) − round(p/6*100, 1)`, here
`33.3 − 16.7 = 16.6`, not always `16.7` — and it leaves
`fragility_score` unchanged (an ENVIRONMENT node feeds no fragility
component, proved for every graph), but `complexity_score` does change,
because the new node raises `node_count` (1.0 → 2.0 here). -/
theorem env_toggle_frame_effect :
    (∀ (g : CICDGraph) (e : Node), e.node_type = NodeType.ENVIRONMENT →
        (compute_scores { nodes := g.nodes ++ [e], edges := g.edges }).fragility_score
          = (compute_scores g).fragility_score)
      ∧ (compute_scores envGraph1).has_env_isolation = false
      ∧ (compute_scores envGraph2).has_env_isolation = true
      ∧ (compute_scores envGraph1).maturity_score = 167 / 10
      ∧ (compute_scores envGraph2).maturity_score = 333 / 10
      ∧ (compute_scores envGraph1).complexity_score = 1
      ∧ (compute_scores envGraph2).complexity_score = 2 := by
  constructor
  · intro g e he
    have h1 : secretCount { nodes := g.nodes ++ [e], edges := g.edges }
        = secretCount g :=
      congrArg List.length (filter_append_single_neg _ g.nodes e (by
        show (e.node_type == NodeType.SECRET_REF) = false
        rw [he]
        decide))
    have h2 : crossTriggerCount { nodes := g.nodes ++ [e], edges := g.edges }
        = crossTriggerCount g := rfl
    have h3 : unpinnedImageCount { nodes := g.nodes ++ [e], edges := g.edges }
        = unpinnedImageCount g :=
      congrArg List.length (filter_append_single_neg _ g.nodes e (by
        show (e.node_type == NodeType.CONTAINER_IMAGE
          && ["latest", "stable", "nightly"].contains (e.tag.getD "latest"))
            = false
        rw [he]
        rw [(by decide :
          (NodeType.ENVIRONMENT == NodeType.CONTAINER_IMAGE) = false)]
        rw [Bool.false_and]))
    have hfd : foundDocs { nodes := g.nodes ++ [e], edges := g.edges }
        = foundDocs g :=
      congrArg (List.map docTypeStr) (filter_append_single_neg _ g.nodes e (by
        show (e.node_type == NodeType.DOC_FILE) = false
        rw [he]
        decide))
    have h4 : missingDocTypes { nodes := g.nodes ++ [e], edges := g.edges }
        = missingDocTypes g := by
      unfold missingDocTypes
      rw [hfd]
    show fragilityScore { nodes := g.nodes ++ [e], edges := g.edges }
      = fragilityScore g
    unfold fragilityScore fragRaw
    rw [h1, h2, h3, h4]
  refine ⟨by decide, by decide, ?_, ?_, ?_, ?_⟩
  · have hp1 : maturityPoints envGraph1 = 1 := by
      rw [maturityPoints_sparse (by decide) (by decide) (by decide)
        (by decide) (by decide)]
      rw [(by decide : hasEnvIsolation envGraph1 = false)]
      norm_num
    rw [show (compute_scores envGraph1).maturity_score
        = maturityScore envGraph1 from rfl, maturityScore_eval hp1]
    norm_num [round1]
  · have hp2 : maturityPoints envGraph2 = 2 := by
      rw [maturityPoints_sparse (by decide) (by decide) (by decide)
        (by decide) (by decide)]
      rw [(by decide : hasEnvIsolation envGraph2 = true)]
      norm_num
    rw [show (compute_scores envGraph2).maturity_score
        = maturityScore envGraph2 from rfl, maturityScore_eval hp2]
    norm_num [round1]
  · rw [show (compute_scores envGraph1).complexity_score
        = complexityScore envGraph1 from rfl,
      complexityScore_eval (by decide : nodeCount envGraph1 = 1)
        (by decide : edgeCount envGraph1 = 0)
        (by decide : maxDepth envGraph1 = 0)
        (by decide : maxFanOut envGraph1 = 0)]
    norm_num [round1]
  · rw [show (compute_scores envGraph2).complexity_score
        = complexityScore envGraph2 from rfl,
      complexityScore_eval (by decide : nodeCount envGraph2 = 2)
        (by decide : edgeCount envGraph2 = 0)
        (by decide : maxDepth envGraph2 = 0)
        (by decide : maxFanOut envGraph2 = 0)]
    norm_num [round1]

/-- Witness for the universal fragility-frame part of the C5 theorem,
at the concrete ENVIRONMENT extension of `envGraph1`. -/
theorem env_toggle_frame_effect_witness :
    (compute_scores envGraph2).fragility_score
      = (compute_scores envGraph1).fragility_score :=
  env_toggle_frame_effect.1 envGraph1 (bare "E2" NodeType.ENVIRONMENT) rfl

/-- C6 counterexample: a DOC_FILE node whose `doc_type` string is
`"README"` provides nothing — the code compares the raw string against
the lowercase literals and reports all 5 doc types missing, while the
claim's lowercase normalization would report 4. -/
theorem doc_type_not_lowercased :
    (compute_scores docUpperGraph).missing_doc_types = 5
      ∧ missingDocTypesSpec docUpperGraph = 4
      ∧ (compute_scores docUpperGraph).missing_doc_types
          ≠ missingDocTypesSpec docUpperGraph := by
  decide

/-- C6 (amended): `missing_doc_types` counts the expected identifiers
absent from the *exact* doc_type strings (enum `.value` or `str(...)`,
no lowercase normalization): lowercase `"readme"` counts (4 missing),
`"README"` does not (5 missing), and duplicates do not double-count
(two `"readme"` nodes still give 4 missing). -/
theorem missing_doc_types_exact_match :
    (∀ g : CICDGraph, (compute_scores g).missing_doc_types
        = (expectedDocs.filter fun d => !(foundDocs g).contains d).length)
      ∧ (compute_scores docLowerGraph).missing_doc_types = 4
      ∧ (compute_scores docUpperGraph).missing_doc_types = 5
      ∧ (compute_scores docDupGraph).missing_doc_types = 4 :=
  ⟨fun _ => rfl, by decide, by decide, by decide⟩

/-- C7: the depth recursion is total — its fuel-indexed unfolding
stabilises as soon as the fuel exceeds the number of CALLS edges whose
source is unvisited (each recursion level inserts a fresh node id that
owns at least one live CALLS edge, so the measure strictly drops) — and
on the cyclic graph `A→B→A` the pipeline depth is the finite value 2. -/
theorem depth_fuel_stabilises :
    (∀ (g : CICDGraph) (id : String) (visited : List String) (f₁ f₂ : Nat),
        liveCalls g visited < f₁ → liveCalls g visited < f₂ →
        computeDepthF g f₁ id visited = computeDepthF g f₂ id visited)
      ∧ (compute_scores cycleGraph).max_depth = 2 := by
  refine ⟨?_, by decide⟩
  intro g id visited f₁ f₂ h1 h2
  exact (depth_stable_aux (liveCalls g visited) g).1 id visited f₁ f₂
    le_rfl h1 h2

/-- Witness for C7's stabilisation at a concrete graph and fuels. -/
theorem depth_fuel_stabilises_witness :
    computeDepthF cycleGraph 3 "A" [] = computeDepthF cycleGraph 50 "A" [] :=
  depth_fuel_stabilises.1 cycleGraph "A" [] 3 50 (by decide) (by decide)

/-- C8: scoring is a pure function of the graph snapshot — two graphs
with the same node and edge collections get identical `Scores` records
(in the embedding the graph is immutable, the one piece of mutable
Python state, the visited set, is threaded explicitly inside
`computeDepthF` and never escapes a call, and `compute_scores` reads
the graph only). -/
theorem compute_scores_deterministic :
    ∀ g g' : CICDGraph, g.nodes = g'.nodes → g.edges = g'.edges →
      compute_scores g = compute_scores g' := by
  intro g g' h1 h2
  cases g
  cases g'
  cases h1
  cases h2
  rfl

/-- Witness for C8 at the empty graph. -/
theorem compute_scores_deterministic_witness :
    compute_scores emptyGraph = compute_scores { nodes := [], edges := [] } :=
  compute_scores_deterministic emptyGraph { nodes := [], edges := [] } rfl rfl

/-- C9: every `Scores` record `compute_scores` returns satisfies the
renderers' bounds invariant: the three scores lie in `[0, 100]` and all
count fields are nonnegative. -/
theorem scores_bounded : ∀ g : CICDGraph,
    (0 ≤ (compute_scores g).complexity_score
        ∧ (compute_scores g).complexity_score ≤ 100)
      ∧ (0 ≤ (compute_scores g).fragility_score
          ∧ (compute_scores g).fragility_score ≤ 100)
      ∧ (0 ≤ (compute_scores g).maturity_score
          ∧ (compute_scores g).maturity_score ≤ 100)
      ∧ 0 ≤ ((compute_scores g).node_count : ℤ)
      ∧ 0 ≤ ((compute_scores g).edge_count : ℤ)
      ∧ 0 ≤ ((compute_scores g).max_depth : ℤ)
      ∧ 0 ≤ ((compute_scores g).max_fan_out : ℤ)
      ∧ 0 ≤ ((compute_scores g).secret_count : ℤ)
      ∧ 0 ≤ ((compute_scores g).cross_trigger_count : ℤ)
      ∧ 0 ≤ ((compute_scores g).unpinned_image_count : ℤ)
      ∧ 0 ≤ ((compute_scores g).missing_doc_types : ℤ) := by
  intro g
  have hcraw : (0 : ℚ) ≤ complexityRaw g := by
    rw [complexityRaw]
    positivity
  have hp6 : maturityPoints g ≤ 6 := by
    rw [maturityPoints]
    split_ifs <;> omega
  have hm0 : (0 : ℚ) ≤ maturityScore g := by
    rw [maturityScore]
    exact round1_nonneg (by positivity)
  have hm100 : maturityScore g ≤ 100 := by
    rw [maturityScore]
    have h6 : ((maturityPoints g : ℚ)) ≤ 6 := by exact_mod_cast hp6
    have harg : (maturityPoints g : ℚ) / 6 * 100 ≤ 100 := by linarith
    have h100 : round1 (100 : ℚ) = 100 := by norm_num [round1]
    calc round1 ((maturityPoints g : ℚ) / 6 * 100)
        ≤ round1 100 := round1_mono harg
      _ = 100 := h100
  refine ⟨⟨?_, ?_⟩, ⟨?_, ?_⟩, ⟨hm0, hm100⟩, by positivity, by positivity,
    by positivity, by positivity, by positivity, by positivity,
    by positivity, by positivity⟩
  · show (0 : ℚ) ≤ complexityScore g
    rw [complexityScore]
    exact le_min (round1_nonneg hcraw) (by norm_num)
  · show complexityScore g ≤ 100
    rw [complexityScore]
    exact le_trans (min_le_right _ _) (by norm_num)
  · show (0 : ℚ) ≤ fragilityScore g
    rw [fragilityScore]
    exact le_min (round1_nonneg (by positivity)) (by norm_num)
  · show fragilityScore g ≤ 100
    rw [fragilityScore]
    exact le_trans (min_le_right _ _) (by norm_num)

/-- C10: a CONTAINER_IMAGE node with `pinned=True` but a floating tag is
counted by *both* signals — it contributes to `unpinned_image_count`
(fragility) while also counting as pinned in `pinned_image_ratio`
(maturity): the two signals read independent attributes. -/
theorem pinned_and_floating_independent :
    ∀ (g : CICDGraph) (n : Node), n ∈ g.nodes →
      n.node_type = NodeType.CONTAINER_IMAGE → n.pinned = some true →
      (["latest", "stable", "nightly"].contains (n.tag.getD "latest")) = true →
      1 ≤ (compute_scores g).unpinned_image_count
        ∧ 0 < (compute_scores g).pinned_image_ratio := by
  intro g n hmem htype hpin htag
  have himg : n ∈ images g :=
    List.mem_filter.mpr ⟨hmem, by simp [htype]⟩
  have hne : images g ≠ [] := List.ne_nil_of_mem himg
  constructor
  · show 1 ≤ unpinnedImageCount g
    rw [unpinnedImageCount]
    have hf : n ∈ g.nodes.filter (fun n =>
        n.node_type == NodeType.CONTAINER_IMAGE
          && ["latest", "stable", "nightly"].contains (n.tag.getD "latest")) :=
      List.mem_filter.mpr ⟨hmem, by rw [htype, htag]; decide⟩
    exact List.length_pos.mpr (List.ne_nil_of_mem hf)
  · show 0 < pinnedImageRatio g
    have hL : (images g).isEmpty = false := by
      simp [List.isEmpty_iff, hne]
    rw [pinnedImageRatio, if_neg (by rw [hL]; exact Bool.false_ne_true)]
    apply div_pos
    · have hpmem : n ∈ (images g).filter (fun n => n.pinned.getD false) :=
        List.mem_filter.mpr ⟨himg, by rw [hpin]; rfl⟩
      have hlen : 0 < ((images g).filter fun n => n.pinned.getD false).length :=
        List.length_pos.mpr (List.ne_nil_of_mem hpmem)
      exact_mod_cast hlen
    · have hlen : 0 < (images g).length := List.length_pos.mpr hne
      exact_mod_cast hlen

/-- Witness for C10 at a one-image graph whose image is pinned with tag
`"latest"`. -/
theorem pinned_and_floating_independent_witness :
    1 ≤ (compute_scores pinnedLatestGraph).unpinned_image_count
      ∧ 0 < (compute_scores pinnedLatestGraph).pinned_image_ratio :=
  pinned_and_floating_independent pinnedLatestGraph
    { bare "I" NodeType.CONTAINER_IMAGE with
      pinned := some true, tag := some "latest" }
    (by decide) rfl rfl (by decide)

end AtlasReport
